import Mathlib

/-!
Verification development for the RADNAD RADIUS NAD simulator (`radnad.py`).

The Python source is shallowly embedded here.  Strings are modelled as
`List Char` (`Str`), the `multidict.MultiDict` attribute container as an
ordered association list (`MDict`) with the exact replace-first /
drop-later-duplicates semantics of `MultiDict.__setitem__`, the pandas
session DataFrame as a `List Session` in insertion order whose index key
is the `timestamp` field, and the external `radclient` subprocess as an
oracle `MDict → Str` producing the stdout transcript that
`RADIUSResponse.__init__` then parses.  Python exceptions become the
`RadError` sum: `TimeoutError` (carrying the raw transcript), `ValueError`
(explicit raises and tuple-unpack mismatches) and `IndexError`
(`list.pop` on an empty list).
-/

set_option autoImplicit false
set_option maxRecDepth 8192

deriving instance DecidableEq for Except

namespace Radnad

/-- Python strings, modelled as explicit character lists so every parsing
step is structurally recursive and kernel-computable. -/
abbrev Str := List Char

/-- The ordered duplicate-key attribute container (`multidict.MultiDict`). -/
abbrev MDict := List (Str × Str)

/-- Python `str.split(sep)` for a single-character separator: keeps empty
chunks, `"".split(c) == [""]`. -/
def splitOnChar (c : Char) : Str → List Str
  | [] => [[]]
  | x :: xs =>
    let r := splitOnChar c xs
    if x = c then [] :: r
    else
      match r with
      | h :: t => (x :: h) :: t
      | [] => [[x]]

/-- One step of `str.splitlines`: split at `\r\n`, `\r` or `\n`,
accumulating the current line in reverse. -/
def splitlinesAux : Str → Str → List Str
  | [], cur => [cur.reverse]
  | '\r' :: '\n' :: rest, cur => cur.reverse :: splitlinesAux rest []
  | '\n' :: rest, cur => cur.reverse :: splitlinesAux rest []
  | '\r' :: rest, cur => cur.reverse :: splitlinesAux rest []
  | ch :: rest, cur => splitlinesAux rest (ch :: cur)

/-- Python `str.splitlines()`: `"".splitlines() == []` and a terminal line
break produces no trailing empty line. -/
def pySplitlines (s : Str) : List Str :=
  match s with
  | [] => []
  | _ =>
    let ls := splitlinesAux s []
    if ls.getLast? = some [] then ls.dropLast else ls

/-- First index at which `sub` occurs in the scanned suffix, counting from
`i`; `none` when `sub` never occurs. -/
def findSubAux (sub : Str) : Str → Nat → Option Nat
  | [], i => if sub = [] then some i else none
  | s :: t, i =>
    if List.isPrefixOf sub (s :: t) then some i else findSubAux sub t (i + 1)

/-- Python `str.find`: first index of `sub` in `s`, or `-1`. -/
def pyFind (s sub : Str) : Int :=
  match findSubAux sub s 0 with
  | some i => (i : Int)
  | none => -1

/-- Whether `sub` occurs anywhere in `s` (i.e. `s.find(sub) != -1`). -/
def containsSub (s sub : Str) : Bool :=
  (findSubAux sub s 0).isSome

/-- Characters removed by Python `str.strip()` with no arguments. -/
def isPyWhitespace (c : Char) : Bool :=
  c = ' ' || c = '\t' || c = '\n' || c = '\r' || c = '\x0b' || c = '\x0c'

/-- Strip characters satisfying `p` from both ends of `s`. -/
def stripWith (p : Char → Bool) (s : Str) : Str :=
  ((s.dropWhile p).reverse.dropWhile p).reverse

/-- Python `str.strip()`. -/
def pyStrip (s : Str) : Str := stripWith isPyWhitespace s

/-- Python `str.strip('"\' ')` as applied to parsed attribute keys and
values: removes double quotes, single quotes and spaces from both ends. -/
def stripQuotes (s : Str) : Str :=
  stripWith (fun c => c = '"' || c = Char.ofNat 39 || c = ' ') s

/-- Split `s` at the first occurrence of `c` (`str.split(c, maxsplit=1)`
when the separator is present); `none` when `c` does not occur. -/
def splitFirstAt (c : Char) : Str → Option (Str × Str)
  | [] => none
  | x :: xs =>
    if x = c then some ([], xs)
    else
      match splitFirstAt c xs with
      | none => none
      | some (a, b) => some (x :: a, b)

/-! ### MultiDict operations

These follow `multidict/_multidict_py.py`: `__setitem__` replaces the
value at the first occurrence of the key and deletes every later
occurrence (appending when the key is absent); `get` returns the first
value; `pop` removes only the first occurrence; `update` overwrites
existing occurrences of each key pairwise, deletes leftovers of
overwritten keys, and appends entries whose key was absent. -/

/-- First value stored under `k` (`MultiDict.get`/`__getitem__`). -/
def mdGet? : MDict → Str → Option Str
  | [], _ => none
  | (k1, v1) :: rest, k => if k1 == k then some v1 else mdGet? rest k

/-- `MultiDict.get(k, d)`. -/
def mdGetD (m : MDict) (k d : Str) : Str := (mdGet? m k).getD d

/-- Key membership (`k in md`). -/
def mdContains (m : MDict) (k : Str) : Bool := (mdGet? m k).isSome

/-- All values stored under `k` in order (`MultiDict.getall`). -/
def mdGetAll (m : MDict) (k : Str) : List Str :=
  (m.filter (fun p => p.1 == k)).map (·.2)

/-- Remove every entry with key `k`. -/
def mdRemoveAll (m : MDict) (k : Str) : MDict :=
  m.filter (fun p => !(p.1 == k))

/-- `MultiDict.__setitem__`: replace the first occurrence of `k` and drop
all later ones; append when `k` is absent. -/
def mdSet : MDict → Str → Str → MDict
  | [], k, v => [(k, v)]
  | (k1, v1) :: rest, k, v =>
    if k1 == k then (k, v) :: mdRemoveAll rest k
    else (k1, v1) :: mdSet rest k v

/-- `MultiDict.pop(k, d)`: remove the first occurrence of `k`, returning
its value (or `none` when absent, in which case the dict is unchanged). -/
def mdPop : MDict → Str → Option Str × MDict
  | [], _ => (none, [])
  | (k1, v1) :: rest, k =>
    if k1 == k then (some v1, rest)
    else
      let (r, m) := mdPop rest k
      (r, (k1, v1) :: m)

/-- Pop with a default value, threading the shrunken dict. -/
def mdPopD (m : MDict) (k d : Str) : Str × MDict :=
  match mdPop m k with
  | (some v, m2) => (v, m2)
  | (none, _) => (d, m)

/-- Take the first pending entry for key `k` out of the pending list. -/
def mdConsume : MDict → Str → Option (Str × MDict)
  | [], _ => none
  | (k1, v1) :: rest, k =>
    if k1 == k then some (v1, rest)
    else
      match mdConsume rest k with
      | none => none
      | some (v, m) => some (v, (k1, v1) :: m)

/-- Walk `self`, overwriting occurrences of keys present in `other`
pairwise with `other`'s pending values and dropping exhausted ones;
returns the rewritten prefix together with the unconsumed pending
entries. -/
def mdUpdateAux : MDict → MDict → MDict → MDict × MDict
  | [], pending, _ => ([], pending)
  | (k, v) :: rest, pending, other =>
    match mdConsume pending k with
    | some (v2, pending2) =>
      let (r, p) := mdUpdateAux rest pending2 other
      ((k, v2) :: r, p)
    | none =>
      if other.any (fun q => q.1 == k) then mdUpdateAux rest pending other
      else
        let (r, p) := mdUpdateAux rest pending other
        ((k, v) :: r, p)

/-- `MultiDict.update(other)`. -/
def mdUpdate (self other : MDict) : MDict :=
  let (r, p) := mdUpdateAux self other other
  r ++ p

/-! ### Errors and the parsed transaction record -/

/-- Python exceptions raised by the embedded operations.  `timeout`
carries the raw `radclient` transcript (`raise TimeoutError(content)`);
`valueError` covers explicit `raise ValueError(...)` and tuple-unpack
mismatches; `indexError` is `list.pop` on an empty list. -/
inductive RadError where
  | timeout (content : Str)
  | valueError
  | indexError
  deriving Repr, DecidableEq, Inhabited

/-- The structured transaction record built by `RADIUSResponse.__init__`.
Numeric-looking fields (`id`, lengths, ports) are kept as the raw token
strings, exactly as the Python assignments do. -/
structure Parsed where
  req_type : Str
  reqId : Str
  req_length : Str
  req_attrs : MDict
  rsp_type : Str
  rsp_length : Str
  rsp_attrs : MDict
  nas_ip : Str
  nas_port : Str
  srv_ip : Str
  srv_port : Str
  deriving Repr, DecidableEq, Inhabited

/-! Attribute-name and packet-type constants from the source. -/

def sReceived : Str := "Received".data
def ACCESS_REQUEST : Str := "Access-Request".data
def ACCESS_ACCEPT : Str := "Access-Accept".data
def ACCESS_REJECT : Str := "Access-Reject".data
def ACCOUNTING_REQUEST : Str := "Accounting-Request".data
def ACCOUNTING_RESPONSE : Str := "Accounting-Response".data
def ACCESS_CHALLENGE : Str := "Access-Challenge".data

/-- `RADIUSResponse.RSP_TYPES` — the membership list used to validate the
parsed response kind (note that it admits `Accounting-Request`). -/
def RSP_TYPES : List Str :=
  [ACCESS_ACCEPT, ACCESS_REJECT, ACCOUNTING_REQUEST, ACCOUNTING_RESPONSE, ACCESS_CHALLENGE]

def sUserName : Str := "User-Name".data
def sUserPassword : Str := "User-Password".data
def sCleartextPassword : Str := "Cleartext-Password".data
def sChapPassword : Str := "CHAP-Password".data
def sReplyMessage : Str := "Reply-Message".data
def sState : Str := "State".data
def sCallingStationId : Str := "Calling-Station-Id".data
def sCalledStationId : Str := "Called-Station-Id".data
def sAcctSessionId : Str := "Acct-Session-Id".data
def sAcctStatusType : Str := "Acct-Status-Type".data
def sAcctSessionTime : Str := "Acct-Session-Time".data
def sSessionTimeout : Str := "Session-Timeout".data
def sFramedIpAddress : Str := "Framed-IP-Address".data
def sNasIdentifier : Str := "NAS-Identifier".data
def sNasPortType : Str := "NAS-Port-Type".data
def sNasPortId : Str := "NAS-Port-Id".data
def sNasPort : Str := "NAS-Port".data
def sServiceType : Str := "Service-Type".data
def sClass : Str := "Class".data
def sTimestamp : Str := "Timestamp".data
def ACCT_START : Str := "Start".data
def ACCT_STOP : Str := "Stop".data

/-! ### Response parser (`RADIUSResponse.__init__`) -/

/-- Fixed positional tokenization shared by the `Sent` and `Received`
header lines:
`<word> <type> Id <id> from <ep1> to <ep2> length <len>`.
A token count other than ten is a tuple-unpack `ValueError`. -/
def split10 (line : Str) : Except RadError (Str × Str × Str × Str × Str) :=
  match splitOnChar ' ' line with
  | [_w, ty, _idw, i, _fromw, ep1, _tow, ep2, _lenw, len] => .ok (ty, i, ep1, ep2, len)
  | _ => .error .valueError

/-- `ep.split(':')` destructured into exactly two parts. -/
def splitColon2 (s : Str) : Except RadError (Str × Str) :=
  match splitOnChar ':' s with
  | [a, b] => .ok (a, b)
  | _ => .error .valueError

/-- One `key = value` attribute line: strip, split at the first `=` only
(preserving `=` inside vendor-specific values), then strip quotes,
spaces from both key and value.  A line with no `=` is a tuple-unpack
`ValueError`. -/
def parseAttrLine (line : Str) : Except RadError (Str × Str) :=
  match splitFirstAt '=' (pyStrip line) with
  | none => .error .valueError
  | some (k, v) => .ok (stripQuotes k, stripQuotes v)

/-- The `while line := lines.pop(0):` loop over the `Sent` section:
pop a line (IndexError when exhausted); an empty line ends the loop; a
line whose first `=` is at index ≤ 0 breaks out as the `Received`
header; otherwise insert the attribute via `__setitem__` and continue.
Returns the accumulated request attributes, the line that ended the
loop, and the unconsumed lines. -/
def reqAttrLoop : List Str → MDict → Except RadError (MDict × Str × List Str)
  | [], _ => .error .indexError
  | l :: rest, acc =>
    if l = [] then .ok (acc, [], rest)
    else if pyFind l ['='] ≤ 0 then .ok (acc, l, rest)
    else
      match parseAttrLine l with
      | .error e => .error e
      | .ok (k, v) => reqAttrLoop rest (mdSet acc k v)

/-- The `while len(lines) > 0:` loop over the `Received` section: every
remaining line must be a `key = value` pair. -/
def rspAttrLoop : List Str → MDict → Except RadError MDict
  | [], acc => .ok acc
  | l :: rest, acc =>
    match parseAttrLine l with
    | .error e => .error e
    | .ok (k, v) => rspAttrLoop rest (mdSet acc k v)

/-- `RADIUSResponse.__init__` up to (but not including) the final
password redaction: the timeout/drop check, the `Sent` header, the
request attribute loop, the `Received` header (whose endpoint fields
overwrite the `Sent` ones, with server and NAS swapped), the response
kind membership check, and the response attribute loop. -/
def parseCore (content : Str) : Except RadError Parsed :=
  if pyFind content sReceived ≤ 0 then .error (.timeout content)
  else
    match pySplitlines content with
    | [] => .error .indexError
    | line0 :: rest =>
      match split10 line0 with
      | .error e => .error e
      | .ok (req_type, _sentId, nas0, server0, req_len) =>
        match splitColon2 nas0 with
        | .error e => .error e
        | .ok _ =>
          match splitColon2 server0 with
          | .error e => .error e
          | .ok _ =>
            match reqAttrLoop rest [] with
            | .error e => .error e
            | .ok (req_attrs, bline, rest2) =>
              match split10 bline with
              | .error e => .error e
              | .ok (rsp_type, rid, server1, nas1, rsp_len) =>
                match splitColon2 nas1 with
                | .error e => .error e
                | .ok (nas_ip, nas_port) =>
                  match splitColon2 server1 with
                  | .error e => .error e
                  | .ok (srv_ip, srv_port) =>
                    if RSP_TYPES.contains rsp_type then
                      match rspAttrLoop rest2 [] with
                      | .error e => .error e
                      | .ok rsp_attrs =>
                        .ok { req_type := req_type, reqId := rid,
                              req_length := req_len, req_attrs := req_attrs,
                              rsp_type := rsp_type, rsp_length := rsp_len,
                              rsp_attrs := rsp_attrs,
                              nas_ip := nas_ip, nas_port := nas_port,
                              srv_ip := srv_ip, srv_port := srv_port }
                    else .error .valueError

/-- A star mask of the same length as `s` (`len(s) * '*'`). -/
def starMask (s : Str) : Str := List.replicate s.length '*'

/-- One redaction step: `if key in attrs:
attrs[key] = len(attrs[key]) * '*'`. -/
def redactStep (key : Str) (m : MDict) : MDict :=
  if mdContains m key then mdSet m key (starMask (mdGetD m key [])) else m

/-- The in-place redaction of `User-Password` and `Cleartext-Password`
in the request attributes that closes `RADIUSResponse.__init__`. -/
def redactPasswords (p : Parsed) : Parsed :=
  { p with req_attrs :=
      redactStep sCleartextPassword (redactStep sUserPassword p.req_attrs) }

/-- Full `RADIUSResponse.__init__`: parse then redact.  (The
`Reply-Message` display loop is an I/O side effect with no state.) -/
def parseResponse (content : Str) : Except RadError Parsed :=
  match parseCore content with
  | .error e => .error e
  | .ok p => .ok (redactPasswords p)

/-- `RADIUSResponse.is_accepted`. -/
def is_accepted (p : Parsed) : Bool :=
  p.req_type == ACCOUNTING_REQUEST && p.rsp_type == ACCOUNTING_RESPONSE

/-- `RADIUSResponse.guess_access_method`. -/
def guess_access_method (p : Parsed) : Str :=
  if mdGet? p.req_attrs sServiceType == some "Call-Check".data then "MAB".data
  else if mdGet? p.req_attrs sServiceType == some "Framed-User".data then "802.1X".data
  else if mdGet? p.req_attrs sNasPortType == some "Virtual".data then "VPN".data
  else "Unknown".data

/-! ### Session store

The pandas sessions DataFrame, one row per live session, in insertion
order.  `timestamp` is the `Timestamp` index key in whole seconds
(`datetime` values are kept at second granularity here; the index is not
guaranteed unique).  `sessionTimeout` is the numeric `Session-Timeout`
column. -/

structure Session where
  timestamp : Nat
  method : Str
  status : Str
  userName : Str
  callingStationId : Str
  framedIp : Str
  sessionTimeout : Nat
  acctSessionId : Str
  calledStationId : Str
  nasPortType : Str
  nasPortId : Str
  nasPort : Str
  nasIdentifier : Str
  classAttr : Str
  other : Str
  deriving Repr, DecidableEq, Inhabited

abbrev Store := List Session

/-- `RADNAD.to_avp_string`: comma-joined `key='value'` rendering. -/
def to_avp_string (m : MDict) : Str :=
  let q := Char.ofNat 39
  List.intercalate ", ".data (m.map (fun p => p.1 ++ ['='] ++ [q] ++ p.2 ++ [q]))

/-- Decimal interpretation of an attribute value, used where the
DataFrame column is numeric (`Session-Timeout`); non-digits yield the
fallback `d`. -/
def natOfStrD (s : Str) (d : Nat) : Nat :=
  if s ≠ [] ∧ s.all (·.isDigit) then
    s.foldl (fun n c => n * 10 + (c.toNat - 48)) 0
  else d

/-- `RADNAD.SESSION_TIMEOUT` (seconds). -/
def SESSION_TIMEOUT : Nat := 3600

/-- `RADNAD.create_session`: from an `Accounting-Response` record, build
one row by successively popping the mapped attributes out of the request
multimap (each `pop` removes only the first occurrence), rendering the
residue into `Other`, and appending the row to the store (`pd.concat`
appends; the index is not re-sorted).  `tsSec` stands for
`response.timestamp`, the wall-clock second at which the response object
was created. -/
def create_session (p : Parsed) (tsSec : Nat) (sessions : Store) :
    Except RadError Store :=
  if p.rsp_type ≠ ACCOUNTING_RESPONSE then .error .valueError
  else
    let method := guess_access_method p
    let (status, m1) := mdPopD p.req_attrs sAcctStatusType ACCT_START
    let (un, m2) := mdPopD m1 sUserName []
    let (csi, m3) := mdPopD m2 sCallingStationId []
    let (fip, m4) := mdPopD m3 sFramedIpAddress []
    let (sto, m5) := mdPopD m4 sSessionTimeout "3600".data
    let (sid, m6) := mdPopD m5 sAcctSessionId []
    let (cld, m7) := mdPopD m6 sCalledStationId []
    let (npt, m8) := mdPopD m7 sNasPortType []
    let (npi, m9) := mdPopD m8 sNasPortId []
    let (np, m10) := mdPopD m9 sNasPort []
    let (nid, m11) := mdPopD m10 sNasIdentifier []
    let (cls, m12) := mdPopD m11 sClass []
    .ok (sessions ++
      [{ timestamp := tsSec, method := method, status := status,
         userName := un, callingStationId := csi, framedIp := fip,
         sessionTimeout := natOfStrD sto SESSION_TIMEOUT,
         acctSessionId := sid, calledStationId := cld,
         nasPortType := npt, nasPortId := npi, nasPort := np,
         nasIdentifier := nid, classAttr := cls,
         other := to_avp_string m12 }])

/-- The session-removal step of `RADNAD.acct_stop_by_attrs`:
`self.sessions.drop(self.sessions.loc[self.sessions['Acct-Session-Id']
== sid].index, inplace=True)`.  pandas `drop` removes rows by index
LABEL, so every row sharing a matched row's timestamp label is removed,
not only the rows whose `Acct-Session-Id` matched. -/
def dropByLabelOfId (sessions : Store) (sid : Str) : Store :=
  let labels := (sessions.filter (fun s => s.acctSessionId == sid)).map (·.timestamp)
  sessions.filter (fun s => !(labels.contains s.timestamp))

/-- The Acct-Status-Type defaulting step of `acct_stop_by_attrs`. -/
def withDefaultStopStatus (attrs : MDict) : MDict :=
  if (mdGet? attrs sAcctStatusType).isNone then
    mdSet attrs sAcctStatusType ACCT_STOP
  else attrs

/-- `RADNAD.acct_stop_by_attrs`.  `radclientOut` is the external
`radclient` invocation, mapping the sent attribute dict to the stdout
transcript that `RADIUSResponse` parses.  The `Timestamp` branch —
`attrs['Acct-Session-Time'] = (datetime.now() - attrs.get('Timestamp'))
.seconds` — subtracts the stored value from a datetime, a `TypeError`
for the string values every caller in the repository stores, so it is
modelled as an error (no caller sets `Timestamp`). -/
def acct_stop_by_attrs (radclientOut : MDict → Str) (sessions : Store)
    (attrs0 : MDict) : Except RadError (Parsed × Store) :=
  if (mdGet? attrs0 sAcctSessionId).isNone then .error .valueError
  else if (mdGet? attrs0 sUserName).isNone then .error .valueError
  else if (mdGet? attrs0 sCallingStationId).isNone then .error .valueError
  else if (mdGet? (withDefaultStopStatus attrs0) sTimestamp).isSome then .error .valueError
  else
    match parseResponse (radclientOut (withDefaultStopStatus attrs0)) with
    | .error e => .error e
    | .ok response =>
      if is_accepted response then
        .ok (response,
          dropByLabelOfId sessions (mdGetD (withDefaultStopStatus attrs0) sAcctSessionId []))
      else .ok (response, sessions)

/-! ### Expiration sweep (`RADNAD.stop_expired_sessions`) -/

/-- Four days in seconds — the absolute retention ceiling. -/
def fourDaySeconds : Nat := 4 * 86400

/-- The rows strictly older than four days
(`self.sessions.index < datetime.now() - timedelta(days=4)`). -/
def phase1Expired (now : Nat) (sessions : Store) : Store :=
  sessions.filter (fun s => decide (s.timestamp + fourDaySeconds < now))

/-- Phase 1: hard-drop the over-4-day rows, removing by
`Acct-Session-Id` membership, without any protocol Stop (the drop is
only performed when the expired selection is non-empty, as in the
source). -/
def phase1Keep (now : Nat) (sessions : Store) : Store :=
  if (phase1Expired now sessions).length > 0 then
    sessions.filter (fun s =>
      !(((phase1Expired now sessions).map (·.acctSessionId)).contains s.acctSessionId))
  else sessions

/-- The phase-2 expiry condition:
`(datetime.now() - self.sessions.index).seconds > Session-Timeout`.
pandas `.seconds` is the seconds COMPONENT of the timedelta, i.e. the
age modulo 86400, not the total age. -/
def sessionExpiredCond (now : Nat) (s : Session) : Bool :=
  (now - s.timestamp) % 86400 > s.sessionTimeout

/-- The stop-attribute dict built for each expired session. -/
def stopAttrsFor (s : Session) : MDict :=
  [(sAcctStatusType, ACCT_STOP), (sAcctSessionId, s.acctSessionId),
   (sUserName, s.userName), (sCallingStationId, s.callingStationId)]

/-- The result of one sweep: the Stop responses produced in phase 2 and
the store left behind. -/
structure SweepResult where
  responses : List Parsed
  sessions : Store
  deriving Repr, DecidableEq, Inhabited

/-- The phase-2 iteration: for each session selected by the (frozen)
expiry condition, perform the accounting Stop on the current store,
append its response, and thread the possibly-shrunken store.  An
exception from `acct_stop_by_attrs` propagates out. -/
def sweepGo (radclientOut : MDict → Str) :
    List Session → Store → List Parsed → Except RadError SweepResult
  | [], store, acc => .ok { responses := acc, sessions := store }
  | s :: rest, store, acc =>
    match acct_stop_by_attrs radclientOut store (stopAttrsFor s) with
    | .error e => .error e
    | .ok (resp, store2) => sweepGo radclientOut rest store2 (acc ++ [resp])

/-- `RADNAD.stop_expired_sessions`: phase-1 hard drop, early return on
an empty store, then the phase-2 Stop loop over the sessions selected by
`sessionExpiredCond`. -/
def stop_expired_sessions (radclientOut : MDict → Str) (now : Nat)
    (sessions : Store) : Except RadError SweepResult :=
  if (phase1Keep now sessions).length = 0 then
    .ok { responses := [], sessions := phase1Keep now sessions }
  else
    sweepGo radclientOut ((phase1Keep now sessions).filter (sessionExpiredCond now))
      (phase1Keep now sessions) []

/-! ### Port generation (`RADNAD.generate_port`) -/

/-- `RADNAD.NAS_PORT_TYPES`. -/
def NAS_PORT_TYPES : List Str :=
  ["Async".data, "Sync".data, "ISDN-Sync".data, "ISDN-Async-V.120".data,
   "ISDN-Async-V.110".data, "Virtual".data, "PIAFS".data,
   "HDLC-Clear-Channel".data, "X.25".data, "X.75".data, "G.3-Fax".data,
   "SDSL".data, "ADSL-CAP".data, "ADSL-DMT".data, "IDSL".data,
   "Ethernet".data, "xDSL".data, "Cable".data, "Wireless-Other".data,
   "Wireless-802.11".data]

def sEthernet : Str := "Ethernet".data
def sWireless80211 : Str := "Wireless-802.11".data
def sVirtual : Str := "Virtual".data

/-- Python `random.randrange(start, stop)` for one draw of the random
source `r`: its possible outputs are exactly `start ≤ n < stop` (the
stop value is NOT a possible output). -/
def pyRandrange (start stop r : Nat) : Nat := start + r % (stop - start)

/-- `RADNAD.generate_port`: validate the NAS-Port-Type, scale the range
(default 24, Ethernet 48, Wireless-802.11 1000, Virtual 10000), and draw
`random.randrange(1, max)`. -/
def generate_port (ty : Str) (r : Nat) : Except RadError Nat :=
  if NAS_PORT_TYPES.contains ty then
    let mx :=
      if ty == sEthernet then 48
      else if ty == sWireless80211 then 1000
      else if ty == sVirtual then 10000
      else 24
    .ok (pyRandrange 1 mx r)
  else .error .valueError

/-! ### Engine configuration (`RADNAD.__init__`) -/

/-- The validated instance configuration. -/
structure Config where
  name : Str
  server : Str
  secret : Str
  auth_port : Int
  acct_port : Int
  coa_port : Int
  options : Str
  retries : Int
  timeout : Int
  level : Int
  deriving Repr, DecidableEq, Inhabited

def OPTIONS_DEFAULT : Str := "-x".data

/-- `RADNAD.__init__` validation chain, in source order: server
non-empty; auth/acct ports in 1024..65536; secret non-empty; options
defaulted then required to contain `x`; retries in 0..10; timeout in
1..60; then the verbosity check — which, as in the source, tests
`timeout > self.LOG_MAX` (5) instead of `level`. -/
def RADNAD_init (name : Str) (server secret : Option Str)
    (auth_port acct_port coa_port : Int) (options : Option Str)
    (retries timeout level : Int) : Except RadError Config :=
  match server with
  | none => .error .valueError
  | some srv =>
    if srv == [] then .error .valueError
    else if auth_port < 1024 ∨ auth_port > 65536 then .error .valueError
    else if acct_port < 1024 ∨ acct_port > 65536 then .error .valueError
    else
      match secret with
      | none => .error .valueError
      | some sec =>
        if sec == [] then .error .valueError
        else
          let opts :=
            match options with
            | none => OPTIONS_DEFAULT
            | some o => if o == [] then OPTIONS_DEFAULT else o
          if pyFind opts "x".data < 0 then .error .valueError
          else if retries < 0 ∨ retries > 10 then .error .valueError
          else if timeout < 1 ∨ timeout > 60 then .error .valueError
          else if level < 0 ∨ timeout > 5 then .error .valueError
          else
            .ok { name := name, server := srv, secret := sec,
                  auth_port := auth_port, acct_port := acct_port,
                  coa_port := coa_port, options := opts,
                  retries := retries, timeout := timeout, level := level }

/-! ### Accounting (`RADNAD.acct`) -/

/-- What `RADNAD.acct` does before any network I/O: either it returns
the authentication record untouched (the Access-Reject early return, no
accounting exchange at all), or it has assembled the attribute dict it
will hand to the external `radclient acct` invocation. -/
inductive AcctOutcome where
  | passthrough (auth : Parsed)
  | exchange (attrs : MDict)
  deriving Repr, DecidableEq

/-- `RADNAD.acct` up to the external invocation.  `nasName` is
`self.name`, `framedIp` the freshly generated `Framed-IP-Address`, and
`freshSid` the `generate_session_id()` value used only when the auth
record carried no `Acct-Session-Id`.  Validation order follows the
source: empty request attrs, the Access-Reject early return, the state
check, empty response attrs; then merge (response overriding request),
strip the RFC 2866 forbidden attributes, stamp status / session id /
NAS-Identifier / Framed-IP-Address. -/
def acct (nasName framedIp freshSid : Str) (auth : Parsed) (state : Str) :
    Except RadError AcctOutcome :=
  if auth.req_attrs.length = 0 then .error .valueError
  else if auth.rsp_type == ACCESS_REJECT then .ok (.passthrough auth)
  else if !(state == ACCT_START) && !(state == ACCT_STOP) then .error .valueError
  else if auth.rsp_attrs.length = 0 then .error .valueError
  else
    let a1 := mdUpdate auth.req_attrs auth.rsp_attrs
    let a2 := (mdPop a1 sUserPassword).2
    let a3 := (mdPop a2 sChapPassword).2
    let a4 := (mdPop a3 sReplyMessage).2
    let a5 := (mdPop a4 sState).2
    let a6 := (mdPop a5 sCleartextPassword).2
    let a7 := mdSet a6 sAcctStatusType state
    let a8 :=
      if (mdGet? a7 sAcctSessionId).isNone then mdSet a7 sAcctSessionId freshSid
      else a7
    let a9 := mdSet a8 sNasIdentifier nasName
    let a10 := mdSet a9 sFramedIpAddress framedIp
    .ok (.exchange a10)

/-! ### Concrete fixtures

Transcripts in the exact `radclient -x` output format parsed by
`RADIUSResponse.__init__`, and session rows for the store scenarios. -/

/-- A timeout transcript (`radclient` got no reply). -/
def txTimeout : Str := "(0) No reply from server for ID 124 socket 4".data

/-- An Access-Accept transcript whose request carries `User-Password` and
`Cleartext-Password`. -/
def tx6 : Str :=
  ("Sent Access-Request Id 192 from 0.0.0.0:fd98 to 1.2.3.4:1812 length 59\n" ++
   "\tUser-Name = \"ahoward\"\n" ++
   "\tUser-Password = \"C1sco12345\"\n" ++
   "\tCleartext-Password = \"C1sco12345\"\n" ++
   "Received Access-Accept Id 192 from 1.2.3.4:714 to 10.16.51.114:64920 length 106\n" ++
   "\tUser-Name = \"ahoward\"\n").data

/-- The record `parseCore` builds for `tx6` (before redaction). -/
def q6 : Parsed :=
  match parseCore tx6 with
  | .ok p => p
  | .error _ => default

/-- A transcript whose Sent section repeats the `Cisco-AVPair` attribute
name on two `key = value` lines. -/
def tx5 : Str :=
  ("Sent Access-Request Id 1 from 0.0.0.0:aaaa to 1.2.3.4:1812 length 90\n" ++
   "\tUser-Name = \"u1\"\n" ++
   "\tCisco-AVPair = \"a=1\"\n" ++
   "\tCisco-AVPair = \"b=2\"\n" ++
   "Received Access-Accept Id 1 from 1.2.3.4:1812 to 10.0.0.1:5000 length 40\n" ++
   "\tUser-Name = \"u1\"\n").data

def sCiscoAvp : Str := "Cisco-AVPair".data

/-- The record parsed from `tx5`. -/
def p5 : Parsed :=
  match parseResponse tx5 with
  | .ok p => p
  | .error _ => default

/-- A transcript whose `Received` line carries the `Accounting-Request`
response kind — outside the four response kinds named by the spec. -/
def txAcctReqRsp : Str :=
  ("Sent Access-Request Id 2 from 0.0.0.0:aaaa to 1.2.3.4:1812 length 50\n" ++
   "\tUser-Name = \"u2\"\n" ++
   "Received Accounting-Request Id 2 from 1.2.3.4:1812 to 10.0.0.1:5000 length 20\n").data

/-- The record parsed from `txAcctReqRsp`. -/
def pAcctReq : Parsed :=
  match parseResponse txAcctReqRsp with
  | .ok p => p
  | .error _ => default

/-- An Access-Reject transcript (no response attributes). -/
def txRej : Str :=
  ("Sent Access-Request Id 3 from 0.0.0.0:aaaa to 1.2.3.4:1812 length 58\n" ++
   "\tUser-Name = \"bjones\"\n" ++
   "\tUser-Password = \"C1sco12345\"\n" ++
   "Received Access-Reject Id 3 from 1.2.3.4:714 to 10.0.0.2:54808 length 20\n").data

/-- The rejected authentication record parsed from `txRej`. -/
def authRej : Parsed :=
  match parseResponse txRej with
  | .ok p => p
  | .error _ => default

/-- An accepted accounting Start exchange for user `bob`, session id 2. -/
def txStart : Str :=
  ("Sent Accounting-Request Id 7 from 0.0.0.0:aaaa to 1.2.3.4:1813 length 80\n" ++
   "\tUser-Name = \"bob\"\n" ++
   "\tCalling-Station-Id = \"BB\"\n" ++
   "\tAcct-Status-Type = Start\n" ++
   "\tAcct-Session-Id = \"2\"\n" ++
   "Received Accounting-Response Id 7 from 1.2.3.4:1813 to 10.0.0.1:5000 length 20\n").data

/-- An accepted accounting Stop exchange transcript. -/
def txStopOK : Str :=
  ("Sent Accounting-Request Id 8 from 0.0.0.0:bbbb to 1.2.3.4:1813 length 60\n" ++
   "\tUser-Name = \"bob\"\n" ++
   "Received Accounting-Response Id 8 from 1.2.3.4:1813 to 10.0.0.1:5001 length 20\n").data

/-- An external-client oracle whose every accounting exchange is
accepted (`txStopOK`). -/
def stopOracle : MDict → Str := fun _ => txStopOK

/-- The parsed accepted Stop response the oracle produces. -/
def pStopResp : Parsed :=
  match parseResponse txStopOK with
  | .ok p => p
  | .error _ => default

/-- A live session for user `alice`, session id 1, started at second
1000 — it shares its start-timestamp index key with the session the
Start of `txStart` commits. -/
def s0 : Session :=
  { timestamp := 1000, method := [], status := ACCT_START,
    userName := "alice".data, callingStationId := "AA".data, framedIp := [],
    sessionTimeout := 3600, acctSessionId := "1".data, calledStationId := [],
    nasPortType := [], nasPortId := [], nasPort := [], nasIdentifier := [],
    classAttr := [], other := [] }

/-- The authentication+Start outcome of `txStart` as a parsed record. -/
def pStart : Parsed :=
  match parseResponse txStart with
  | .ok p => p
  | .error _ => default

/-- The store after the Start of `txStart` commits its session at second
1000 into the store `[s0]`. -/
def storeAfterStart : Store :=
  match create_session pStart 1000 [s0] with
  | .ok st => st
  | .error _ => []

/-- The stop attributes carrying session 2's Acct-Session-Id, User-Name
and Calling-Station-Id. -/
def c1StopAttrs : MDict :=
  [(sAcctStatusType, ACCT_STOP), (sAcctSessionId, "2".data),
   (sUserName, "bob".data), (sCallingStationId, "BB".data)]

/-- A session row generator for the sweep scenarios. -/
def mkSess (ts sto : Nat) (sid un csi : Str) : Session :=
  { timestamp := ts, method := [], status := ACCT_START, userName := un,
    callingStationId := csi, framedIp := [], sessionTimeout := sto,
    acctSessionId := sid, calledStationId := [], nasPortType := [],
    nasPortId := [], nasPort := [], nasIdentifier := [], classAttr := [],
    other := [] }

/-- Session-Timeout 60, age 61 seconds at `now = 1000000`. -/
def sAge61 : Session := mkSess (1000000 - 61) 60 "10".data "ua".data "ca".data

/-- Session-Timeout 60, age 59 seconds at `now = 1000000`. -/
def sAge59 : Session := mkSess (1000000 - 59) 60 "11".data "ub".data "cb".data

/-- Session-Timeout 60, age exactly one day (86400 seconds) at
`now = 1000000` — it survives the 4-day hard drop. -/
def sAge1Day : Session := mkSess (1000000 - 86400) 60 "12".data "uc".data "cc".data

/-- A session started at second 0, more than 4 days before
`now = 400000`. -/
def sOld : Session := mkSess 0 3600 "77".data "old".data "co".data

def cfgName : Str := "RADNAD".data
def cfgSrv : Str := "1.2.3.4".data
def cfgSec : Str := "C1sco12345".data

/-- The configuration `RADNAD.__init__` accepts at timeout 5. -/
def c9cfg5 : Config :=
  match RADNAD_init cfgName (some cfgSrv) (some cfgSec) 1812 1813 1700
      (some OPTIONS_DEFAULT) 3 5 0 with
  | .ok c => c
  | .error _ => default

/-! ## Theorems

First the container and store helper lemmas, then one theorem per claim
(with a witness wherever the theorem carries a hypothesis). -/

theorem mdGet_mdSet_self (m : MDict) (k v : Str) :
    mdGet? (mdSet m k v) k = some v := by
  induction m with
  | nil => simp [mdSet, mdGet?]
  | cons p rest ih =>
    obtain ⟨k1, v1⟩ := p
    by_cases h : (k1 == k) = true
    · simp [mdSet, h, mdGet?]
    · simp only [Bool.not_eq_true] at h
      simp [mdSet, h, mdGet?, ih]

theorem mdGet_mdRemoveAll_other (m : MDict) (k kr : Str)
    (h : (kr == k) = false) : mdGet? (mdRemoveAll m kr) k = mdGet? m k := by
  induction m with
  | nil => simp [mdRemoveAll, mdGet?]
  | cons p rest ih =>
    obtain ⟨k1, v1⟩ := p
    by_cases h1 : (k1 == kr) = true
    · have hk : (k1 == k) = false := by
        have e1 : k1 = kr := by exact eq_of_beq h1
        subst e1; exact h
      simp only [mdRemoveAll, List.filter] at ih ⊢
      simp [h1, mdGet?, hk, ih]
    · simp only [Bool.not_eq_true] at h1
      simp only [mdRemoveAll, List.filter] at ih ⊢
      simp [h1, mdGet?, ih]

theorem mdGet_mdSet_other (m : MDict) (k ks v : Str)
    (h : (ks == k) = false) : mdGet? (mdSet m ks v) k = mdGet? m k := by
  induction m with
  | nil => simp [mdSet, mdGet?, h]
  | cons p rest ih =>
    obtain ⟨k1, v1⟩ := p
    by_cases h1 : (k1 == ks) = true
    · have e1 : k1 = ks := eq_of_beq h1
      subst e1
      simp [mdSet, mdGet?, h, mdGet_mdRemoveAll_other rest k k1 h]
    · simp only [Bool.not_eq_true] at h1
      simp [mdSet, h1, mdGet?, ih]

theorem mdContains_eq_isSome (m : MDict) (k : Str) :
    mdContains m k = (mdGet? m k).isSome := rfl

theorem mem_of_mem_dropByLabelOfId {sessions : Store} {sid : Str}
    {x : Session} (h : x ∈ dropByLabelOfId sessions sid) : x ∈ sessions := by
  unfold dropByLabelOfId at h
  exact (List.mem_filter.mp h).1

theorem acct_stop_store_subset {oracle : MDict → Str} {st : Store}
    {attrs : MDict} {resp : Parsed} {st2 : Store}
    (h : acct_stop_by_attrs oracle st attrs = .ok (resp, st2)) :
    ∀ x ∈ st2, x ∈ st := by
  unfold acct_stop_by_attrs at h
  split at h
  · exact absurd h (by simp)
  split at h
  · exact absurd h (by simp)
  split at h
  · exact absurd h (by simp)
  split at h
  · exact absurd h (by simp)
  split at h
  · exact absurd h (by simp)
  split at h
  · simp only [Except.ok.injEq, Prod.mk.injEq] at h
    intro x hx
    rw [← h.2] at hx
    exact mem_of_mem_dropByLabelOfId hx
  · simp only [Except.ok.injEq, Prod.mk.injEq] at h
    intro x hx
    rw [← h.2] at hx
    exact hx

theorem sweepGo_store_subset (oracle : MDict → Str) :
    ∀ (l : List Session) (st : Store) (acc : List Parsed) (r : SweepResult),
      sweepGo oracle l st acc = .ok r → ∀ x ∈ r.sessions, x ∈ st := by
  intro l
  induction l with
  | nil =>
    intro st acc r h x hx
    unfold sweepGo at h
    simp only [Except.ok.injEq] at h
    rw [← h] at hx
    exact hx
  | cons s rest ih =>
    intro st acc r h x hx
    unfold sweepGo at h
    split at h
    · exact absurd h (by simp)
    · next resp st2 heq =>
      exact acct_stop_store_subset heq x (ih st2 _ r h x hx)

/-- C2: for every transcript string containing no `Received` line,
parsing fails with the distinct timeout/drop condition carrying the raw
transcript as its payload — never with a generic parse error and never
with a constructed transaction record. -/
theorem c2_no_received_always_timeout (content : Str)
    (h : containsSub content sReceived = false) :
    parseResponse content = .error (.timeout content) := by
  have hnone : findSubAux sReceived content 0 = none := by
    unfold containsSub at h
    cases hx : findSubAux sReceived content 0 with
    | none => rfl
    | some i => rw [hx] at h; simp at h
  have hf : pyFind content sReceived = -1 := by
    unfold pyFind; rw [hnone]
  have hc : parseCore content = .error (.timeout content) := by
    unfold parseCore
    rw [hf, if_pos (show (-1 : Int) ≤ 0 by norm_num)]
  unfold parseResponse
  rw [hc]

/-- C2 witness: the example timeout transcript from the source contains
no `Received` line and parses to the timeout condition. -/
theorem c2_no_received_always_timeout_witness :
    containsSub txTimeout sReceived = false ∧
    parseResponse txTimeout = .error (.timeout txTimeout) :=
  ⟨by decide, c2_no_received_always_timeout txTimeout (by decide)⟩

/-- C8: `generate_port` draws `random.randrange(1, max)`, whose outputs
are exactly `1 ≤ n < max`; the upper bound of the claimed inclusive
range (48 for Ethernet, 1000 for Wireless-802.11, 10000 for Virtual) is
never a possible output. -/
theorem c8_generate_port_excludes_range_max : ∀ r : Nat,
    generate_port sEthernet r = .ok (1 + r % 47) ∧ 1 + r % 47 < 48 ∧
    generate_port sWireless80211 r = .ok (1 + r % 999) ∧ 1 + r % 999 < 1000 ∧
    generate_port sVirtual r = .ok (1 + r % 9999) ∧ 1 + r % 9999 < 10000 := by
  intro r
  have h47 : r % 47 < 47 := Nat.mod_lt r (by norm_num)
  have h999 : r % 999 < 999 := Nat.mod_lt r (by norm_num)
  have h9999 : r % 9999 < 9999 := Nat.mod_lt r (by norm_num)
  refine ⟨rfl, by omega, rfl, by omega, rfl, by omega⟩

/-- C9: a timeout of 6 — well inside the documented 1..60 range — is
rejected by the constructor, because the verbosity check compares
`timeout` (not `level`) against `LOG_MAX = 5`; a timeout of 5 is
accepted and recorded. -/
theorem c9_timeout_above_five_rejected :
    ((1 : Int) ≤ 6 ∧ (6 : Int) ≤ 60) ∧
    RADNAD_init cfgName (some cfgSrv) (some cfgSec) 1812 1813 1700
      (some OPTIONS_DEFAULT) 3 6 0 = .error .valueError ∧
    RADNAD_init cfgName (some cfgSrv) (some cfgSec) 1812 1813 1700
      (some OPTIONS_DEFAULT) 3 5 0 = .ok c9cfg5 ∧
    c9cfg5.timeout = 5 := by decide

/-- C10: accounting invoked on an Access-Reject authentication record
performs no external accounting exchange and returns the given
authentication record itself. -/
theorem c10_acct_reject_passthrough (nasName framedIp freshSid : Str)
    (auth : Parsed) (state : Str) (hrej : auth.rsp_type = ACCESS_REJECT)
    (hne : auth.req_attrs.length ≠ 0) :
    acct nasName framedIp freshSid auth state = .ok (.passthrough auth) := by
  simp [acct, hne, hrej]

/-- C10 witness: the parsed Access-Reject record of `txRej` is passed
through by `acct` unchanged. -/
theorem c10_acct_reject_passthrough_witness :
    (authRej.rsp_type = ACCESS_REJECT ∧ authRej.req_attrs.length ≠ 0) ∧
    acct cfgName "10.1.1.1".data "9".data authRej ACCT_START =
      .ok (.passthrough authRej) :=
  ⟨⟨by decide, by decide⟩,
   c10_acct_reject_passthrough cfgName "10.1.1.1".data "9".data authRej
     ACCT_START (by decide) (by decide)⟩

/-- C1: an accepted Start commits exactly one row, but an accepted Stop
for that session removes BOTH the new row and the pre-existing session
`s0` that merely shares its start-timestamp index key (pandas `drop` by
index label), leaving the store empty instead of back at size 1. -/
theorem c1_stop_drops_sibling_session :
    ([s0] : Store).length = 1 ∧
    create_session pStart 1000 [s0] = .ok storeAfterStart ∧
    storeAfterStart.length = 2 ∧
    acct_stop_by_attrs stopOracle storeAfterStart c1StopAttrs =
      .ok (pStopResp, []) := by
  refine ⟨rfl, by decide, by decide, by decide⟩

/-- C3: at `now = 1000000` the session of age 61 with Session-Timeout 60
is selected for Stop and the one of age 59 is not — but the session of
age exactly one day (86400 s), which survives the 4-day drop and whose
age far exceeds its Session-Timeout of 60, is NOT selected, because the
code compares the pandas Timedelta `.seconds` component (age mod 86400)
rather than the age itself; the full sweep stops only the age-61
session. -/
theorem c3_expiry_misses_day_old_session :
    sessionExpiredCond 1000000 sAge61 = true ∧
    sessionExpiredCond 1000000 sAge59 = false ∧
    1000000 - sAge1Day.timestamp > sAge1Day.sessionTimeout ∧
    sessionExpiredCond 1000000 sAge1Day = false ∧
    stop_expired_sessions stopOracle 1000000 [sAge61, sAge59, sAge1Day] =
      .ok { responses := [pStopResp], sessions := [sAge59, sAge1Day] } := by
  decide

/-- C5: the Sent section of `tx5` carries two `Cisco-AVPair` lines, yet
the parsed request multimap retains a single coalesced entry holding
only the last value — `MultiDict.__setitem__` replaces instead of
appending. -/
theorem c5_duplicate_attribute_names_coalesce :
    ((pySplitlines tx5).filter (fun l => containsSub l sCiscoAvp)).length = 2 ∧
    parseResponse tx5 = .ok p5 ∧
    mdGetAll p5.req_attrs sCiscoAvp = ["b=2".data] ∧
    (p5.req_attrs.filter (fun q => q.1 == sCiscoAvp)).length = 1 := by
  decide

/-- C7 counterexample: a transcript whose `Received` line carries the
`Accounting-Request` kind — outside the claimed four-kind set —
nevertheless parses into a transaction record, because the source's
`RSP_TYPES` membership list also admits `Accounting-Request`. -/
theorem c7_accounting_request_response_parses :
    parseResponse txAcctReqRsp = .ok pAcctReq ∧
    pAcctReq.rsp_type = ACCOUNTING_REQUEST ∧
    pAcctReq.rsp_type ≠ ACCESS_ACCEPT ∧
    pAcctReq.rsp_type ≠ ACCESS_REJECT ∧
    pAcctReq.rsp_type ≠ ACCESS_CHALLENGE ∧
    pAcctReq.rsp_type ≠ ACCOUNTING_RESPONSE := by
  decide

/-- C7 (amended): every successfully parsed transcript has a response
kind in the five-element `RSP_TYPES` list {Access-Accept, Access-Reject,
Accounting-Request, Accounting-Response, Access-Challenge}; construction
fails for every kind outside it. -/
theorem c7_response_kind_in_rsp_types (content : Str) (p : Parsed)
    (h : parseResponse content = .ok p) :
    RSP_TYPES.contains p.rsp_type = true := by
  unfold parseResponse at h
  cases hq : parseCore content with
  | error e => rw [hq] at h; exact absurd h (by simp)
  | ok q =>
    rw [hq] at h
    simp only [Except.ok.injEq] at h
    have hrt : p.rsp_type = q.rsp_type := by rw [← h]; rfl
    rw [hrt]
    unfold parseCore at hq
    repeat' first
      | exact Except.noConfusion hq
      | split at hq
    simp only [Except.ok.injEq] at hq
    rw [← hq]
    assumption

/-- C7 witness: the amended theorem applied to the parsed
`Accounting-Request` transcript. -/
theorem c7_response_kind_in_rsp_types_witness :
    parseResponse txAcctReqRsp = .ok pAcctReq ∧
    RSP_TYPES.contains pAcctReq.rsp_type = true :=
  ⟨by decide, c7_response_kind_in_rsp_types txAcctReqRsp pAcctReq (by decide)⟩

theorem redactStep_get_self (m : MDict) (key v : Str)
    (hv : mdGet? m key = some v) :
    mdGet? (redactStep key m) key = some (starMask v) := by
  have hc : mdContains m key = true := by
    rw [mdContains_eq_isSome, hv]; rfl
  have hg : mdGetD m key [] = v := by
    unfold mdGetD; rw [hv]; rfl
  unfold redactStep
  rw [if_pos hc, hg, mdGet_mdSet_self]

theorem redactStep_get_other (m : MDict) (key k : Str)
    (hk : (key == k) = false) :
    mdGet? (redactStep key m) k = mdGet? m k := by
  unfold redactStep
  by_cases hc : mdContains m key = true
  · rw [if_pos hc, mdGet_mdSet_other _ _ _ _ hk]
  · rw [if_neg hc]

/-- C6: when a transcript parses, the full parse is the core parse
followed by the redaction step; a `User-Password` (or
`Cleartext-Password`) request value of length n becomes exactly n mask
characters, and the response attributes are untouched by redaction. -/
theorem c6_password_redaction (content : Str) (q : Parsed)
    (h : parseCore content = .ok q) :
    parseResponse content = .ok (redactPasswords q) ∧
    (∀ v, mdGet? q.req_attrs sUserPassword = some v →
      mdGet? (redactPasswords q).req_attrs sUserPassword = some (starMask v)) ∧
    (∀ v, mdGet? q.req_attrs sCleartextPassword = some v →
      mdGet? (redactPasswords q).req_attrs sCleartextPassword = some (starMask v)) ∧
    (redactPasswords q).rsp_attrs = q.rsp_attrs := by
  refine ⟨?_, ?_, ?_, rfl⟩
  · unfold parseResponse; rw [h]
  · intro v hv
    show mdGet? (redactStep sCleartextPassword (redactStep sUserPassword q.req_attrs))
        sUserPassword = some (starMask v)
    rw [redactStep_get_other _ _ _ (by decide)]
    exact redactStep_get_self _ _ _ hv
  · intro v hv
    show mdGet? (redactStep sCleartextPassword (redactStep sUserPassword q.req_attrs))
        sCleartextPassword = some (starMask v)
    refine redactStep_get_self _ _ _ ?_
    rw [redactStep_get_other _ _ _ (by decide)]
    exact hv

/-- C6 witness: parsing `tx6` (request password `C1sco12345`) stores ten
mask characters and leaves the response attributes as parsed. -/
theorem c6_password_redaction_witness :
    parseCore tx6 = .ok q6 ∧
    mdGet? q6.req_attrs sUserPassword = some "C1sco12345".data ∧
    (parseResponse tx6 = .ok (redactPasswords q6) ∧
     (∀ v, mdGet? q6.req_attrs sUserPassword = some v →
       mdGet? (redactPasswords q6).req_attrs sUserPassword = some (starMask v)) ∧
     (∀ v, mdGet? q6.req_attrs sCleartextPassword = some v →
       mdGet? (redactPasswords q6).req_attrs sCleartextPassword = some (starMask v)) ∧
     (redactPasswords q6).rsp_attrs = q6.rsp_attrs) :=
  ⟨by decide, by decide, c6_password_redaction tx6 q6 (by decide)⟩

/-- C4: a session older than the 4-day retention ceiling is removed by
the sweep without any Stop exchange being issued for it: it is dropped
by phase 1, no phase-2 selected session carries its Acct-Session-Id
(so no Stop attrs — and hence no returned Stop record — refer to it),
and it is absent from the store the sweep leaves behind. -/
theorem c4_four_day_ceiling_drop_without_stop (oracle : MDict → Str)
    (now : Nat) (store : Store) (s : Session) (hs : s ∈ store)
    (hage : s.timestamp + fourDaySeconds < now) :
    s ∉ phase1Keep now store ∧
    (∀ t ∈ (phase1Keep now store).filter (sessionExpiredCond now),
        t.acctSessionId ≠ s.acctSessionId) ∧
    (∀ r, stop_expired_sessions oracle now store = .ok r → s ∉ r.sessions) := by
  have hmem : s ∈ phase1Expired now store :=
    List.mem_filter.mpr ⟨hs, by simpa using hage⟩
  have hlen : (phase1Expired now store).length > 0 :=
    List.length_pos.mpr (List.ne_nil_of_mem hmem)
  have hsid : s.acctSessionId ∈ (phase1Expired now store).map (·.acctSessionId) :=
    List.mem_map.mpr ⟨s, hmem, rfl⟩
  have hcontains :
      ((phase1Expired now store).map (·.acctSessionId)).contains s.acctSessionId = true :=
    List.elem_eq_true_of_mem hsid
  have hnotin : s ∉ phase1Keep now store := by
    unfold phase1Keep
    rw [if_pos hlen]
    intro habs
    have h2 := (List.mem_filter.mp habs).2
    rw [hcontains] at h2
    simp at h2
  refine ⟨hnotin, ?_, ?_⟩
  · intro t ht heq
    have ht1 : t ∈ phase1Keep now store := (List.mem_filter.mp ht).1
    unfold phase1Keep at ht1
    rw [if_pos hlen] at ht1
    have h2 := (List.mem_filter.mp ht1).2
    rw [heq, hcontains] at h2
    simp at h2
  · intro r hr habs
    unfold stop_expired_sessions at hr
    split at hr
    · simp only [Except.ok.injEq] at hr
      rw [← hr] at habs
      exact hnotin habs
    · exact hnotin (sweepGo_store_subset oracle _ _ _ r hr s habs)

/-- C4 witness: the session started at second 0 is over four days old at
`now = 400000`, and the sweep with an always-accepting oracle drops it
without stopping it. -/
theorem c4_four_day_ceiling_drop_without_stop_witness :
    (sOld ∈ ([sOld] : Store) ∧ sOld.timestamp + fourDaySeconds < 400000) ∧
    (sOld ∉ phase1Keep 400000 [sOld] ∧
     (∀ t ∈ (phase1Keep 400000 [sOld]).filter (sessionExpiredCond 400000),
        t.acctSessionId ≠ sOld.acctSessionId) ∧
     (∀ r, stop_expired_sessions stopOracle 400000 [sOld] = .ok r →
        sOld ∉ r.sessions)) :=
  ⟨⟨by decide, by decide⟩,
   c4_four_day_ceiling_drop_without_stop stopOracle 400000 [sOld] sOld
     (by decide) (by decide)⟩

end Radnad
